import Mathlib

/-!
Shallow embedding of `src/app.py` (job-posting qualification pipeline).

External capabilities are modelled as explicit oracle values:
a classification call either fails (transport or JSON-parse error, the
`except` branch) or yields a parsed JSON object, represented by the value
found at the stage's key (`Option String`, `none` when the key is absent,
mirroring `dict.get(key, default)`).  The search capability is a function
from query to `none` (exception, or reply without a usable `results`
entry) or `some urls` (the list of result URLs).  Python dictionaries that
carry the posting are modelled as a structure whose two optional fields
stand for the keys `process_job` may add.
-/

namespace JobScraper

/-- Occurrence of `needle` as a contiguous character run of the haystack,
mirroring the Python `in` operator on strings (the empty needle occurs in
every string). -/
def occursIn (needle : List Char) : List Char → Bool
  | [] => needle.isEmpty
  | c :: rest => needle.isPrefixOf (c :: rest) || occursIn needle rest

/-- Substring test used by the keyword shortcut and the recency filter. -/
def containsSubstr (hay needle : String) : Bool :=
  occursIn needle.data hay.data

/-- Character-level lower-casing, mirroring Python `str.lower()` on the
ASCII data this program handles. -/
def pyLower (s : String) : String :=
  String.mk (s.data.map Char.toLower)

/-- Accumulator pass behind `pySplit`: splits on whitespace runs and drops
the empty pieces, structurally on the character list. -/
def splitWsAux (cur : List Char) : List Char → List (List Char)
  | [] => if cur.isEmpty then [] else [cur.reverse]
  | c :: rest =>
    if c.isWhitespace then
      if cur.isEmpty then splitWsAux [] rest
      else cur.reverse :: splitWsAux [] rest
    else splitWsAux (c :: cur) rest

/-- Whitespace split discarding empty tokens, mirroring Python `str.split()`
(the source also applies `.strip()` to each token, a no-op after such a
split). -/
def pySplit (s : String) : List String :=
  (splitWsAux [] s.data).map String.mk

/-- Domain-to-keyword table `FIELD_KEYWORDS` from `app.py`. -/
def FIELD_KEYWORDS : String → Option String
  | "Data Science" => some "data scientist"
  | "Human Resources" => some "human resources"
  | "Digital Transformation" => some "digital transformation"
  | "Cyber Security" => some "cyber security"
  | "FinTech" => some "fintech"
  | "Project Management" => some "project management"
  | "Strategic Management" => some "strategic management"
  | "Business Management" => some "business management"
  | "General Management" => some "general management"
  | "Product Management" => some "product management"
  | _ => none

/-- Pipeline working state (`JobState` TypedDict):  four judged fields plus
the three optional decision slots. -/
structure JobState where
  Title : String
  Company : String
  Experience : String
  Description : String
  is_relevant : Option String
  is_competitor : Option String
  job_tier : Option String
deriving Repr, DecidableEq

/-- Result of one classification-capability call: `none` is the `except`
path (transport or parse failure), `some v` is a parsed reply, `v` being
the value `out.get(key, default)` finds at the stage's key. -/
abbrev CapResponse := Option (Option String)

/-- Acceptance tokens of `check_relevance`: the domain's keyword string
split on whitespace, plus the raw domain label itself
(`FIELD_KEYWORDS.get(GLOBAL_FIELD, GLOBAL_FIELD)` with fallback). -/
def relevanceVariants (field : String) : List String :=
  pySplit ((FIELD_KEYWORDS field).getD field) ++ [field]

/-- Fast-path condition of `check_relevance`: some acceptance token occurs
in the lower-cased concatenation of Title and Description. -/
def relevance_fast_path (field : String) (state : JobState) : Bool :=
  (relevanceVariants field).any
    (fun kw => containsSubstr (pyLower (state.Title ++ " " ++ state.Description)) kw)

/-- Relevance stage (`check_relevance`): keyword shortcut, else one
capability call with default "No" on failure or missing key. -/
def check_relevance (field : String) (cap : CapResponse) (state : JobState) : JobState :=
  if relevance_fast_path field state then
    { state with is_relevant := some "Yes" }
  else
    match cap with
    | some out => { state with is_relevant := some (out.getD "No") }
    | none => { state with is_relevant := some "No" }

/-- Number of classification-capability calls `check_relevance` makes:
zero on the fast path, exactly one otherwise (the source has no retry). -/
def relevance_calls (field : String) (state : JobState) : Nat :=
  if relevance_fast_path field state then 0 else 1

/-- Competitor stage (`check_competitor`): the hard-coded competitor list
only feeds the capability prompt, so the decision reduces to one
capability call, with default "No" on failure or missing key. -/
def check_competitor (cap : CapResponse) (state : JobState) : JobState :=
  match cap with
  | some out => { state with is_competitor := some (out.getD "No") }
  | none => { state with is_competitor := some "No" }

/-- Tier stage (`determine_tier`): one capability call; on failure the
default "N/A", otherwise `out.get('job_tier','N/A')` copied unchecked. -/
def determine_tier (cap : CapResponse) (state : JobState) : JobState :=
  match cap with
  | some out => { state with job_tier := some (out.getD "N/A") }
  | none => { state with job_tier := some "N/A" }

/-- Classification-capability replies for the three calls one pipeline
invocation makes. -/
structure Oracle where
  relCap : CapResponse
  compCap : CapResponse
  tierCap : CapResponse
deriving Repr, DecidableEq

/-- Compiled graph of `build_graph`: entry `relevance`, edge to
`competitor`, edge to `tier`, finish at `tier` — the sequential
composition of the three stages on the shared state. -/
def run_graph (field : String) (o : Oracle) (s : JobState) : JobState :=
  determine_tier o.tierCap (check_competitor o.compCap (check_relevance field o.relCap s))

/-- Search-capability behavior: per query, `none` is an exception or a
reply without a usable `results` entry; `some urls` is the ordered list
of result URLs. -/
abbrev SearchOracle := String → Option (List String)

/-- One guarded search (`search_with_tavily`): the first result's URL when
one is present, the empty string on an empty result list or an exception
(the function never raises). -/
def search_with_tavily (oracle : SearchOracle) (query : String) : String :=
  match oracle query with
  | some (u :: _) => u
  | some [] => ""
  | none => ""

/-- Enrichment resolver (`get_company_career_page`): the company+" careers"
query first, the bare company name only when that yields the empty string
(Python `url or ...`). -/
def get_company_career_page (oracle : SearchOracle) (company_name : String) : String :=
  let url := search_with_tavily oracle (company_name ++ " careers")
  if url ≠ "" then url else search_with_tavily oracle company_name

/-- Queries the resolver actually issues, in order, for a given company. -/
def career_page_queries (oracle : SearchOracle) (company_name : String) : List String :=
  if search_with_tavily oracle (company_name ++ " careers") ≠ "" then
    [company_name ++ " careers"]
  else
    [company_name ++ " careers", company_name]

/-- Posting record as scraped (`scrape_url` rows).  The two optional
fields model the dictionary keys "Job Tier" and "Job Link" that
`process_job` may add; the scraper leaves them absent. -/
structure Job where
  Title : String
  Company : String
  Experience : String
  Description : String
  PostedDate : String
  Location : String
  Salary : String
  Skills : String
  JobTier : Option String := none
  JobLink : Option String := none
deriving Repr, DecidableEq

/-- Initial pipeline state `process_job` builds from a posting, all three
decision slots unset. -/
def initState (job : Job) : JobState :=
  { Title := job.Title, Company := job.Company, Experience := job.Experience,
    Description := job.Description,
    is_relevant := none, is_competitor := none, job_tier := none }

/-- Drop condition of the post-pipeline filter (`app.py` line 132):
`result['is_relevant'].lower() != 'yes' or result['is_competitor'].lower() != 'no'`.
The pipeline always writes both slots before this test (see the pipeline
composition theorem), so `getD ""` is never the value compared. -/
def post_filter_drops (result : JobState) : Bool :=
  pyLower (result.is_relevant.getD "") != "yes"
    || pyLower (result.is_competitor.getD "") != "no"

/-- Per-posting driver (`process_job`).  The first component is the
returned value (`none` for Python `None`); the second is the caller's
posting dictionary after the call, since the source mutates it in
place. -/
def process_job (field : String) (o : Oracle) (so : SearchOracle) (job : Job) :
    Option Job × Job :=
  let result := run_graph field o (initState job)
  if post_filter_drops result then
    (none, job)
  else
    let job1 := { job with JobTier := result.job_tier }
    let link := get_company_career_page so job.Company
    if link = "" then
      (none, job1)
    else
      (some { job1 with JobLink := some link }, { job1 with JobLink := some link })

/-- Allow-list of recency phrases from `is_job_recent`. -/
def recency_phrases : List String :=
  ["just now", "few hours", "today", "1 day", "2 days", "3 days"]

/-- Recency filter (`is_job_recent`): case-insensitive substring match
against the fixed phrase list. -/
def is_job_recent (date_str : String) : Bool :=
  recency_phrases.any (fun x => containsSubstr (pyLower date_str) x)

/-- Per-domain loop of `scrape_jobs_for_domain` lines 170-175: each raw
posting is paired with the classification replies its pipeline run would
receive; survivors of `process_job` and the recency filter (consulted on
the caller's, possibly mutated, dictionary) are accumulated in order. -/
def scrape_jobs_for_domain (field : String) (so : SearchOracle) :
    List (Job × Oracle) → List Job
  | [] => []
  | (job, o) :: rest =>
    let r := process_job field o so job
    (match r.1 with
     | some p => if is_job_recent r.2.PostedDate then [p] else []
     | none => []) ++ scrape_jobs_for_domain field so rest

/-- Concrete pipeline state matching the spec's end-to-end scenario. -/
def sampleState : JobState :=
  { Title := "Data Scientist", Company := "Acme Corp", Experience := "2 years",
    Description := "Looking for a data scientist", is_relevant := none,
    is_competitor := none, job_tier := none }

/-- Concrete pipeline state on which no Data Science keyword fires. -/
def plumberState : JobState :=
  { Title := "Plumber", Company := "Acme Corp", Experience := "2 years",
    Description := "fixing pipes", is_relevant := none,
    is_competitor := none, job_tier := none }

/-- Concrete scraped posting used by the witnesses. -/
def sampleJob : Job :=
  { Title := "Data Scientist", Company := "Acme", Experience := "2 years",
    Description := "ml role", PostedDate := "Today", Location := "Remote",
    Salary := "10 LPA", Skills := "python" }

/-- Capability replies that keep the sample posting. -/
def keepOracle : Oracle :=
  ⟨some (some "Yes"), some (some "No"), some (some "Mid")⟩

/-- Search behavior answering only the "Acme careers" query. -/
def acmeSearch : SearchOracle :=
  fun q => if q = "Acme careers" then some ["https://acme.example/careers"] else none

/-- Search behavior that always fails. -/
def noSearch : SearchOracle := fun _ => none

/-- Expected enriched output for the sample posting under `keepOracle`
and `acmeSearch`. -/
def sampleKept : Job :=
  { sampleJob with JobTier := some "Mid", JobLink := some "https://acme.example/careers" }

/-- Completed pipeline state with the kept combination of decisions. -/
def yesNoState : JobState :=
  { sampleState with is_relevant := some "Yes", is_competitor := some "No" }

/-- C1: for every completed ClassificationState, the post-pipeline filter
in `process_job` keeps the posting iff `is_relevant` equals "Yes" and
`is_competitor` equals "No", both case-insensitively; over the four
combinations of {Yes,No}x{Yes,No} only (Yes,No) keeps, and whenever the
filter drops, `process_job` returns nothing. -/
theorem post_filter_keep_iff :
    (∀ (result : JobState) (r c : String),
        result.is_relevant = some r → result.is_competitor = some c →
        (post_filter_drops result = false ↔ (pyLower r = "yes" ∧ pyLower c = "no")))
    ∧ (∀ r c : String, r ∈ (["Yes", "No"] : List String) →
        c ∈ (["Yes", "No"] : List String) →
        ∀ result : JobState, result.is_relevant = some r → result.is_competitor = some c →
        (post_filter_drops result = false ↔ (r = "Yes" ∧ c = "No")))
    ∧ (∀ (field : String) (o : Oracle) (so : SearchOracle) (job : Job),
        post_filter_drops (run_graph field o (initState job)) = true →
        (process_job field o so job).1 = none) := by
  refine ⟨?_, ?_, ?_⟩
  · intro result r c hr hc
    simp [post_filter_drops, hr, hc]
  · intro r c hr hc result hr' hc'
    simp only [List.mem_cons, List.mem_singleton, List.not_mem_nil, or_false] at hr hc
    rcases hr with rfl | rfl <;> rcases hc with rfl | rfl <;>
      simp [post_filter_drops, hr', hc'] <;> decide
  · intro field o so job h
    simp [process_job, h]

/-- C1 witness: a completed state with slots "Yes"/"No" is kept. -/
theorem post_filter_keep_iff_witness :
    post_filter_drops yesNoState = false ↔ ("Yes" = "Yes" ∧ "No" = "No") :=
  post_filter_keep_iff.2.1 "Yes" "No" (by decide) (by decide) yesNoState rfl rfl

/-- C2: a posting whose lower-cased Title-plus-Description contains an
acceptance token (keyword token or the raw domain label) takes the fast
path: `is_relevant` is set to "Yes" regardless of the capability reply and
the stage makes zero capability calls. -/
theorem keyword_fast_path_no_call :
    ∀ (field : String) (cap : CapResponse) (state : JobState) (kw : String),
      kw ∈ relevanceVariants field →
      containsSubstr (pyLower (state.Title ++ " " ++ state.Description)) kw = true →
      check_relevance field cap state = { state with is_relevant := some "Yes" }
        ∧ relevance_calls field state = 0 := by
  intro field cap state kw hmem hsub
  have hfp : relevance_fast_path field state = true := by
    unfold relevance_fast_path
    exact List.any_eq_true.mpr ⟨kw, hmem, hsub⟩
  constructor
  · simp [check_relevance, hfp]
  · simp [relevance_calls, hfp]

/-- C2 witness: the token "data" fires the fast path on the sample state
even when the capability would fail. -/
theorem keyword_fast_path_no_call_witness :
    check_relevance "Data Science" none sampleState
        = { sampleState with is_relevant := some "Yes" }
      ∧ relevance_calls "Data Science" sampleState = 0 :=
  keyword_fast_path_no_call "Data Science" none sampleState "data"
    (by decide) (by decide)

/-- C3 counterexample: a successfully parsed capability reply carrying the
out-of-set tier value "Executive" is copied unchanged into `job_tier` by
`determine_tier`, so the stage output is not confined to
{"Fresher","Mid","Senior","N/A"} and an invalid value does not hit the
failure path. -/
theorem tier_passthrough_counterexample :
    (determine_tier (some (some "Executive")) sampleState).job_tier = some "Executive"
      ∧ "Executive" ∉ (["Fresher", "Mid", "Senior", "N/A"] : List String) := by
  constructor
  · rfl
  · decide

/-- C3 amended: `determine_tier` yields "N/A" exactly on the failure path
(call or parse failure) or when the parsed reply lacks the `job_tier` key;
a parsed value is copied unchanged even when invalid, so the output lies
in {"Fresher","Mid","Senior","N/A"} iff the default applied or the
capability's own value lay in the set. -/
theorem determine_tier_default_and_passthrough :
    ∀ s : JobState,
      (∀ v : String, (determine_tier (some (some v)) s).job_tier = some v)
      ∧ (determine_tier (some none) s).job_tier = some "N/A"
      ∧ (determine_tier none s).job_tier = some "N/A"
      ∧ (∀ cap : CapResponse,
          (determine_tier cap s).job_tier.getD ""
              ∈ (["Fresher", "Mid", "Senior", "N/A"] : List String)
            ↔ (cap = none ∨ cap = some none
                ∨ ∃ v, cap = some (some v)
                    ∧ v ∈ (["Fresher", "Mid", "Senior", "N/A"] : List String))) := by
  intro s
  refine ⟨fun v => rfl, rfl, rfl, ?_⟩
  intro cap
  rcases cap with _ | (_ | v) <;> simp [determine_tier]

/-- C4: when a classification call or its parse fails (the `except` path),
the failure never escapes the total stage function: off the fast path the
Relevance Stage writes "No", the Competitor Stage writes "No", the Tier
Stage writes "N/A", and the Relevance Stage makes exactly one call with no
retry. -/
theorem capability_failure_defaults :
    ∀ (field : String) (s : JobState),
      (relevance_fast_path field s = false →
        (check_relevance field none s).is_relevant = some "No"
          ∧ relevance_calls field s = 1)
      ∧ (check_competitor none s).is_competitor = some "No"
      ∧ (determine_tier none s).job_tier = some "N/A" := by
  intro field s
  refine ⟨fun h => ⟨?_, ?_⟩, rfl, rfl⟩
  · simp [check_relevance, h]
  · simp [relevance_calls, h]

/-- C4 witness: on the plumber posting no Data Science keyword fires, and
a failing capability call defaults the relevance slot to "No" after one
call. -/
theorem capability_failure_defaults_witness :
    (check_relevance "Data Science" none plumberState).is_relevant = some "No"
      ∧ relevance_calls "Data Science" plumberState = 1 :=
  (capability_failure_defaults "Data Science" plumberState).1 (by decide)

/-- C5: the resolver queries company+" careers" first and takes the first
result's URL; the bare-company query is issued iff the first query yields
the empty result; when both the first and the bare query raise or yield
nothing the resolver returns ""; exceptions (`none` replies) are absorbed,
never raised. -/
theorem career_page_resolution :
    ∀ (oracle : SearchOracle) (company : String),
      (∀ (u : String) (rest : List String),
          oracle (company ++ " careers") = some (u :: rest) →
          search_with_tavily oracle (company ++ " careers") = u)
      ∧ (search_with_tavily oracle (company ++ " careers") ≠ "" →
          get_company_career_page oracle company
              = search_with_tavily oracle (company ++ " careers")
            ∧ career_page_queries oracle company = [company ++ " careers"])
      ∧ (search_with_tavily oracle (company ++ " careers") = "" →
          get_company_career_page oracle company = search_with_tavily oracle company
            ∧ career_page_queries oracle company = [company ++ " careers", company])
      ∧ (oracle (company ++ " careers") = none → oracle company = none →
          get_company_career_page oracle company = "") := by
  intro oracle company
  refine ⟨?_, ?_, ?_, ?_⟩
  · intro u rest h
    simp [search_with_tavily, h]
  · intro h
    constructor
    · simp [get_company_career_page, h]
    · simp [career_page_queries, h]
  · intro h
    constructor
    · simp [get_company_career_page, h]
    · simp [career_page_queries, h]
  · intro h1 h2
    simp [get_company_career_page, search_with_tavily, h1, h2]

/-- C5 witness: with a search behavior answering only "Acme careers", the
first query resolves and short-circuits the bare query. -/
theorem career_page_resolution_witness :
    get_company_career_page acmeSearch "Acme"
        = search_with_tavily acmeSearch ("Acme" ++ " careers")
      ∧ career_page_queries acmeSearch "Acme" = ["Acme" ++ " careers"] :=
  (career_page_resolution acmeSearch "Acme").2.1 (by decide)

/-- C6: a posting that passes both gates but whose enrichment yields the
empty result makes `process_job` return nothing, so the orchestrator
appends no record for it and processes the rest of the batch exactly as
if the posting were absent. -/
theorem enrichment_failure_drops_posting :
    ∀ (field : String) (o : Oracle) (so : SearchOracle) (job : Job)
      (rest : List (Job × Oracle)),
      post_filter_drops (run_graph field o (initState job)) = false →
      get_company_career_page so job.Company = "" →
      (process_job field o so job).1 = none
        ∧ scrape_jobs_for_domain field so ((job, o) :: rest)
            = scrape_jobs_for_domain field so rest := by
  intro field o so job rest h1 h2
  have hnone : (process_job field o so job).1 = none := by
    simp [process_job, h1, h2]
  refine ⟨hnone, ?_⟩
  simp [scrape_jobs_for_domain, hnone]

/-- C6 witness: the sample posting is kept by both gates, yet with an
always-failing search capability it is dropped and an empty batch remains
empty. -/
theorem enrichment_failure_drops_posting_witness :
    (process_job "Data Science" keepOracle noSearch sampleJob).1 = none
      ∧ scrape_jobs_for_domain "Data Science" noSearch [(sampleJob, keepOracle)]
          = scrape_jobs_for_domain "Data Science" noSearch [] :=
  enrichment_failure_drops_posting "Data Science" keepOracle noSearch sampleJob []
    (by decide) (by decide)

/-- C7: the recency filter is a pure case-insensitive substring match of
the date string against the fixed phrase allow-list; in particular
"Posted 2 days ago" passes, "3 weeks ago" fails, "Just Now" passes, and
two strings with the same lower-casing always agree. -/
theorem is_job_recent_spec :
    is_job_recent "Posted 2 days ago" = true
      ∧ is_job_recent "3 weeks ago" = false
      ∧ is_job_recent "Just Now" = true
      ∧ (∀ s : String, is_job_recent s
            = recency_phrases.any (fun x => containsSubstr (pyLower s) x))
      ∧ (∀ s t : String, pyLower s = pyLower t →
            is_job_recent s = is_job_recent t) := by
  refine ⟨by decide, by decide, by decide, fun s => rfl, ?_⟩
  intro s t h
  simp [is_job_recent, h]

/-- C7 witness: "Just Now" and "JUST NOW" lower-case identically, so the
filter agrees on them. -/
theorem is_job_recent_spec_witness :
    is_job_recent "Just Now" = is_job_recent "JUST NOW" :=
  is_job_recent_spec.2.2.2.2 "Just Now" "JUST NOW" (by decide)

/-- C8: on a fresh state the compiled graph is exactly the composition
Relevance then Competitor then Tier on the shared state; each stage writes
its own slot (leaving it set) and leaves the other two slots untouched, so
every slot is written exactly once, in pipeline order, and is never reset;
the keep/drop test is applied by `process_job` only to the finished
state. -/
theorem pipeline_order_and_slots :
    ∀ (field : String) (o : Oracle) (s : JobState),
      s.is_relevant = none → s.is_competitor = none → s.job_tier = none →
      run_graph field o s
          = determine_tier o.tierCap
              (check_competitor o.compCap (check_relevance field o.relCap s))
        ∧ (check_relevance field o.relCap s).is_relevant.isSome = true
        ∧ (check_relevance field o.relCap s).is_competitor = none
        ∧ (check_relevance field o.relCap s).job_tier = none
        ∧ (check_competitor o.compCap (check_relevance field o.relCap s)).is_relevant
            = (check_relevance field o.relCap s).is_relevant
        ∧ (check_competitor o.compCap
              (check_relevance field o.relCap s)).is_competitor.isSome = true
        ∧ (check_competitor o.compCap (check_relevance field o.relCap s)).job_tier = none
        ∧ (run_graph field o s).is_relevant
            = (check_relevance field o.relCap s).is_relevant
        ∧ (run_graph field o s).is_competitor
            = (check_competitor o.compCap (check_relevance field o.relCap s)).is_competitor
        ∧ (run_graph field o s).job_tier.isSome = true := by
  intro field o s h1 h2 h3
  have hrel : (check_relevance field o.relCap s).is_relevant.isSome = true
      ∧ (check_relevance field o.relCap s).is_competitor = s.is_competitor
      ∧ (check_relevance field o.relCap s).job_tier = s.job_tier := by
    unfold check_relevance
    by_cases hfp : relevance_fast_path field s <;> cases o.relCap <;> simp [hfp]
  have hcomp : ∀ (cap : CapResponse) (s' : JobState),
      (check_competitor cap s').is_competitor.isSome = true
        ∧ (check_competitor cap s').is_relevant = s'.is_relevant
        ∧ (check_competitor cap s').job_tier = s'.job_tier := by
    intro cap s'
    cases cap <;> simp [check_competitor]
  have htier : ∀ (cap : CapResponse) (s' : JobState),
      (determine_tier cap s').job_tier.isSome = true
        ∧ (determine_tier cap s').is_relevant = s'.is_relevant
        ∧ (determine_tier cap s').is_competitor = s'.is_competitor := by
    intro cap s'
    cases cap <;> simp [determine_tier]
  refine ⟨rfl, hrel.1, hrel.2.1.trans h2, hrel.2.2.trans h3, ?_, ?_, ?_, ?_, ?_, ?_⟩
  · exact (hcomp o.compCap _).2.1
  · exact (hcomp o.compCap _).1
  · exact ((hcomp o.compCap _).2.2).trans (hrel.2.2.trans h3)
  · exact ((htier o.tierCap _).2.1).trans (hcomp o.compCap _).2.1
  · exact (htier o.tierCap _).2.2
  · exact (htier o.tierCap _).1

/-- C8 witness: the slot discipline holds on the sample posting's fresh
state under the keeping capability replies. -/
theorem pipeline_order_and_slots_witness :
    (run_graph "Data Science" keepOracle sampleState).job_tier.isSome = true :=
  (pipeline_order_and_slots "Data Science" keepOracle sampleState
    rfl rfl rfl).2.2.2.2.2.2.2.2.2

/-- C9: `process_job` adds only the "Job Tier" and "Job Link" keys to a
kept posting, leaving all eight scraped fields unchanged; the dictionary
the recency filter later consults carries the original "Posted Date"
value in every outcome. -/
theorem process_job_frame :
    ∀ (field : String) (o : Oracle) (so : SearchOracle) (job : Job),
      (process_job field o so job).2.PostedDate = job.PostedDate
      ∧ (∀ p : Job, (process_job field o so job).1 = some p →
          p.Title = job.Title ∧ p.Company = job.Company
            ∧ p.Experience = job.Experience ∧ p.Description = job.Description
            ∧ p.PostedDate = job.PostedDate ∧ p.Location = job.Location
            ∧ p.Salary = job.Salary ∧ p.Skills = job.Skills
            ∧ p.JobTier = (run_graph field o (initState job)).job_tier
            ∧ p.JobTier.isSome = true ∧ p.JobLink.isSome = true) := by
  intro field o so job
  have htier : (run_graph field o (initState job)).job_tier.isSome = true := by
    unfold run_graph
    cases o.tierCap <;> simp [determine_tier]
  by_cases hd : post_filter_drops (run_graph field o (initState job))
  · constructor
    · simp [process_job, hd]
    · intro p hp
      simp [process_job, hd] at hp
  · by_cases hl : get_company_career_page so job.Company = ""
    · constructor
      · simp [process_job, hd, hl]
      · intro p hp
        simp [process_job, hd, hl] at hp
    · constructor
      · simp [process_job, hd, hl]
      · intro p hp
        simp [process_job, hd, hl] at hp
        subst hp
        refine ⟨rfl, rfl, rfl, rfl, rfl, rfl, rfl, rfl, rfl, htier, rfl⟩

/-- C9 witness: the kept sample posting retains all eight scraped fields
and gains exactly the tier and link. -/
theorem process_job_frame_witness :
    sampleKept.Title = sampleJob.Title ∧ sampleKept.Company = sampleJob.Company
      ∧ sampleKept.Experience = sampleJob.Experience
      ∧ sampleKept.Description = sampleJob.Description
      ∧ sampleKept.PostedDate = sampleJob.PostedDate
      ∧ sampleKept.Location = sampleJob.Location
      ∧ sampleKept.Salary = sampleJob.Salary
      ∧ sampleKept.Skills = sampleJob.Skills
      ∧ sampleKept.JobTier
          = (run_graph "Data Science" keepOracle (initState sampleJob)).job_tier
      ∧ sampleKept.JobTier.isSome = true ∧ sampleKept.JobLink.isSome = true :=
  (process_job_frame "Data Science" keepOracle acmeSearch sampleJob).2 sampleKept
    (by decide)

/-- C10: `process_job` mutates the caller's dictionary in place, so a
posting that passes both gates but fails enrichment is returned as
nothing while the caller's record has already received the "Job Tier"
key. -/
theorem process_job_mutates_dropped :
    ∀ (field : String) (o : Oracle) (so : SearchOracle) (job : Job),
      post_filter_drops (run_graph field o (initState job)) = false →
      get_company_career_page so job.Company = "" →
      (process_job field o so job).1 = none
        ∧ (process_job field o so job).2.JobTier
            = (run_graph field o (initState job)).job_tier
        ∧ (process_job field o so job).2.JobTier.isSome = true := by
  intro field o so job h1 h2
  have htier : (run_graph field o (initState job)).job_tier.isSome = true := by
    unfold run_graph
    cases o.tierCap <;> simp [determine_tier]
  refine ⟨?_, ?_, ?_⟩ <;> simp [process_job, h1, h2, htier]

/-- C10 witness: with an always-failing search capability the kept sample
posting is dropped, yet the caller's record carries the tier "Mid". -/
theorem process_job_mutates_dropped_witness :
    (process_job "Data Science" keepOracle noSearch sampleJob).1 = none
      ∧ (process_job "Data Science" keepOracle noSearch sampleJob).2.JobTier
          = (run_graph "Data Science" keepOracle (initState sampleJob)).job_tier
      ∧ (process_job "Data Science" keepOracle noSearch sampleJob).2.JobTier.isSome
          = true :=
  process_job_mutates_dropped "Data Science" keepOracle noSearch sampleJob
    (by decide) (by decide)

end JobScraper
